import Mathlib

/-!
Shallow embedding of the refresh-rate / idle-mode feature-negotiation engine
of the BOE nt37290 AMOLED panel driver (`panel-boe-nt37290.c`).

The driver keeps a software-desired feature bitmap (`feat`), the state last
committed to hardware (`hw_feat`, `hw_vrefresh`, `hw_idle_vrefresh`), an idle
rate resolver with a debounce policy, a command-batch builder and an
early-exit trigger.  The definitions below translate those C functions into
pure Lean functions over an explicit panel-state record; the DSI commands
emitted by a function are returned as a list of byte lists.
-/

namespace NT37290

/-- Bitmap over `enum nt37290_panel_feature` (G10_FEAT_EARLY_EXIT,
G10_FEAT_FRAME_AUTO). -/
structure FeatureSet where
  earlyExit : Bool
  frameAuto : Bool
deriving DecidableEq, Repr

/-- `enum exynos_panel_idle_mode` values used by this driver. -/
inductive IdleMode where
  | unsupported
  | onInactivity
  | onSelfRefresh
deriving DecidableEq, Repr

/-- The parts of `struct exynos_panel_mode` that the negotiation logic reads:
the mode's vertical refresh rate, its idle mode and its low-power (AOD)
flag. -/
structure PanelMode where
  vrefresh : Nat
  idleMode : IdleMode
  isLpMode : Bool
deriving DecidableEq, Repr

/-- The mutable state the negotiation engine reads and writes: the
`struct nt37290_panel` fields plus the `struct exynos_panel` base fields it
consults.  Timestamp arithmetic is represented by the already-computed
elapsed times (`idle_time_delta_ms` models `panel_get_idle_time_delta`). -/
structure PanelState where
  /-- `ctx->current_mode` (none models a NULL pointer) -/
  current_mode : Option PanelMode
  /-- `ctx->min_vrefresh` -/
  min_vrefresh : Nat
  /-- `IS_HBM_ON(ctx->hbm_mode)` -/
  hbm_on : Bool
  /-- `ctx->dimming_on` -/
  dimming_on : Bool
  /-- `ctx->panel_idle_enabled` -/
  panel_idle_enabled : Bool
  /-- `ctx->idle_delay_ms` -/
  idle_delay_ms : Nat
  /-- `panel_get_idle_time_delta(ctx)`: ms since the last mode set -/
  idle_time_delta_ms : Nat
  /-- `ctx->self_refresh_active` -/
  self_refresh_active : Bool
  /-- `ctx->panel_idle_vrefresh` -/
  panel_idle_vrefresh : Nat
  /-- `is_panel_active(ctx)` -/
  panel_active : Bool
  /-- `spanel->feat`: software/working correlated features -/
  feat : FeatureSet
  /-- `spanel->hw_feat`: correlated states effective in panel -/
  hw_feat : FeatureSet
  /-- `spanel->hw_vrefresh` -/
  hw_vrefresh : Nat
  /-- `spanel->hw_idle_vrefresh` -/
  hw_idle_vrefresh : Nat
  /-- `spanel->auto_mode_vrefresh` -/
  auto_mode_vrefresh : Nat
  /-- `spanel->delayed_idle` -/
  delayed_idle : Bool
deriving DecidableEq, Repr

/-- `NT37290_TE2_MIN_RATE` -/
def NT37290_TE2_MIN_RATE : Nat := 30

/-- `NT37290_TE2_CHANGEABLE` -/
def NT37290_TE2_CHANGEABLE : Nat := 0x02

/-- `NT37290_TE2_FIXED` -/
def NT37290_TE2_FIXED : Nat := 0x22

/-- `EARLY_EXIT_THRESHOLD_US` -/
def EARLY_EXIT_THRESHOLD_US : Nat := 17000

/-- `IDLE_DELAY_THRESHOLD_US` -/
def IDLE_DELAY_THRESHOLD_US : Nat := 50000

/-- `cmd2_page0` byte table -/
def cmd2_page0 : List Nat := [0xF0, 0x55, 0xAA, 0x52, 0x08, 0x00]

/-- `stream_2c` byte table -/
def stream_2c : List Nat := [0x2C]

/-- `is_auto_mode_allowed` -/
def is_auto_mode_allowed (s : PanelState) : Bool :=
  if s.hbm_on || s.dimming_on then false
  else s.panel_idle_enabled

/-- The else-if bucketing chain of `nt37290_update_min_idle_vrefresh`:
a minimum refresh rate is rounded up to the nearest supported idle tier. -/
def bucketTier (minRefresh : Nat) : Nat :=
  if minRefresh ≤ 10 then 10
  else if minRefresh ≤ 30 then 30
  else if minRefresh ≤ 60 then 60
  else 0

/-- The idle vrefresh value of `nt37290_update_min_idle_vrefresh` just before
the idle-delay (debounce) check: zero when idling is disallowed, otherwise the
bucketed tier, and forced to zero when it would not be strictly below the
target vrefresh. -/
def idleVrefreshBucketed (s : PanelState) (pmode : PanelMode) : Nat :=
  let idle0 : Nat :=
    if s.min_vrefresh = 0 ∨ is_auto_mode_allowed s = false ∨
        pmode.idleMode = IdleMode.unsupported then 0
    else if s.min_vrefresh ≤ 10 then 10
    else if s.min_vrefresh ≤ 30 then 30
    else if s.min_vrefresh ≤ 60 then 60
    else 0
  if idle0 ≥ pmode.vrefresh then 0 else idle0

/-- `nt37290_update_min_idle_vrefresh`: resolves the idle rate, applies the
idle-delay debounce policy, and stores the result in
`auto_mode_vrefresh` / `delayed_idle`. -/
def nt37290_update_min_idle_vrefresh (s : PanelState) (pmode : PanelMode) :
    PanelState :=
  let idle := idleVrefreshBucketed s pmode
  if idle ≠ 0 ∧ s.idle_delay_ms ≠ 0 ∧ s.idle_time_delta_ms < s.idle_delay_ms then
    { s with delayed_idle := true, auto_mode_vrefresh := 0 }
  else
    { s with delayed_idle := false, auto_mode_vrefresh := idle }

/-- `0xBA` payload: auto frame insertion off (manual), 60 Hz only -/
def ba_manual_60 : List Nat :=
  [0xBA, 0x91, 0x01, 0x01, 0x00, 0x01, 0x01, 0x01, 0x00]

/-- `0xBA` payload: auto frame insertion on, idle 10 Hz -/
def ba_auto_10 : List Nat :=
  [0xBA, 0x93, 0x09, 0x03, 0x00, 0x11, 0x0B, 0x0B, 0x00, 0x06]

/-- `0xBA` payload: auto frame insertion on, idle 30 Hz -/
def ba_auto_30 : List Nat :=
  [0xBA, 0x93, 0x03, 0x02, 0x00, 0x11, 0x03, 0x03, 0x00, 0x04]

/-- `0xBA` payload: auto frame insertion on, idle 60 Hz -/
def ba_auto_60 : List Nat :=
  [0xBA, 0x93, 0x01, 0x01, 0x00, 0x01, 0x01, 0x01, 0x00, 0x00]

/-- The `dev_warn` messages of `nt37290_update_panel_feat` (recoverable
configuration warnings). -/
inductive Warn where
  | unsupportedManualVrefresh (vrefresh : Nat)
  | unsupportedIdleVrefresh (idleVrefresh : Nat)
deriving DecidableEq, Repr

/-- Result of `nt37290_update_panel_feat`: the new state, the boolean return
value, the DSI commands emitted to the panel and the warnings raised. -/
structure UpdateResult where
  state : PanelState
  updated : Bool
  cmds : List (List Nat)
  warns : List Warn
deriving DecidableEq, Repr

/-- `nt37290_update_panel_feat`: decides whether a hardware flush is needed
(symmetric difference of `feat` and `hw_feat`, plus vrefresh / idle-vrefresh
comparison, all overridden by `enforce`), and if so builds and flushes the
register batch and commits `hw_vrefresh`, `hw_idle_vrefresh`, `hw_feat`.
`ctx->panel_idle_vrefresh` is zeroed unconditionally at entry.  When the C
code is called with a NULL `pmode` it reads `ctx->current_mode`; a missing
current mode is mapped to vrefresh 0 (the driver never reaches that case). -/
def nt37290_update_panel_feat (s : PanelState) (pmode : Option PanelMode)
    (enforce : Bool) : UpdateResult :=
  let vrefresh : Nat :=
    match pmode with
    | some m => m.vrefresh
    | none =>
      match s.current_mode with
      | some m => m.vrefresh
      | none => 0
  let idle_vrefresh := s.auto_mode_vrefresh
  let s0 := { s with panel_idle_vrefresh := 0 }
  if enforce = false ∧ s.feat = s.hw_feat ∧ vrefresh = s.hw_vrefresh ∧
      idle_vrefresh = s.hw_idle_vrefresh then
    { state := s0, updated := false, cmds := [], warns := [] }
  else
    let s1 := { s0 with
      hw_vrefresh := vrefresh,
      hw_idle_vrefresh := idle_vrefresh,
      hw_feat := s.feat }
    let ee := s.feat.earlyExit
    let fi := s.feat.frameAuto
    if vrefresh = 120 ∧ fi = false then
      { state := s1, updated := true,
        cmds := [[0x2F, 0x00], [0x44, 0x00, 0x00]], warns := [] }
    else
      let autoFrame : List (List Nat) × List Warn :=
        if fi = false then
          if vrefresh = 60 then ([ba_manual_60], [])
          else ([], [Warn.unsupportedManualVrefresh vrefresh])
        else
          if idle_vrefresh = 10 then ([ba_auto_10], [])
          else if idle_vrefresh = 30 then ([ba_auto_30], [])
          else if idle_vrefresh = 60 then ([ba_auto_60], [])
          else ([], [Warn.unsupportedIdleVrefresh idle_vrefresh])
      let teCmd : List Nat :=
        if vrefresh = 120 then [0x44, 0x00, 0x00] else [0x44, 0x00, 0x01]
      { state := s1, updated := true,
        cmds := [[0x2F, 0x00], [0x2F, 0x30],
                 [0x5A, if ee then 0x00 else 0x01],
                 cmd2_page0, [0x6F, 0x1C]] ++
                autoFrame.1 ++ [stream_2c, teCmd],
        warns := autoFrame.2 }

/-- `was_lp_mode` read at the top of `nt37290_change_frequency`
(`ctx->current_mode->exynos_mode.is_lp_mode`). -/
def wasLpMode (s : PanelState) : Bool :=
  match s.current_mode with
  | some m => m.isLpMode
  | none => false

/-- The `idle_active` condition of `nt37290_change_frequency`, evaluated on
the state already updated by `nt37290_update_min_idle_vrefresh`. -/
def idleActive (s1 : PanelState) (pmode : PanelMode) : Bool :=
  decide (s1.auto_mode_vrefresh ≠ 0) &&
    (decide (pmode.idleMode = IdleMode.onInactivity) ||
     (decide (pmode.idleMode = IdleMode.onSelfRefresh) && s1.self_refresh_active))

/-- Result of `nt37290_change_frequency`. -/
structure ChangeResult where
  state : PanelState
  updated : Bool
  cmds : List (List Nat)
  warns : List Warn
deriving DecidableEq, Repr

/-- `nt37290_change_frequency`: resolves the idle rate, couples the
EarlyExit / FrameAuto bits to `idle_active`, reconciles with hardware
(forcing a flush while exiting AOD), and republishes
`ctx->panel_idle_vrefresh`. -/
def nt37290_change_frequency (s : PanelState) (pmode : PanelMode) :
    ChangeResult :=
  let was_lp_mode := wasLpMode s
  let s1 := nt37290_update_min_idle_vrefresh s pmode
  let b := idleActive s1 pmode
  let s2 := { s1 with feat := { earlyExit := b, frameAuto := b } }
  let r := nt37290_update_panel_feat s2 (some pmode) was_lp_mode
  let s3 := { r.state with
    panel_idle_vrefresh :=
      if r.state.self_refresh_active then r.state.hw_idle_vrefresh else 0 }
  { state := s3, updated := r.updated, cmds := r.cmds, warns := r.warns }

/-- `nt37290_get_te2_option`: AOD and low committed idle rates force fixed
TE2. -/
def nt37290_get_te2_option (s : PanelState) : Nat :=
  match s.current_mode with
  | none => NT37290_TE2_CHANGEABLE
  | some m =>
    if m.isLpMode = true ∨
        (0 < s.hw_idle_vrefresh ∧ s.hw_idle_vrefresh < NT37290_TE2_MIN_RATE) then
      NT37290_TE2_FIXED
    else
      NT37290_TE2_CHANGEABLE

/-- Outcome of `exynos_panel_get_current_mode_te2`: 0, `-EAGAIN`, or any
other error. -/
inductive Te2SourceResult where
  | ok (rising falling : Nat)
  | notReady
  | err
deriving DecidableEq, Repr

/-- `nt37290_update_te2`: picks rising/falling edges (masked to one byte)
from the timing source, falls back to the defaults 0 / 0x30 on `-EAGAIN`,
aborts (emitting nothing) on any other failure, then emits the option and
timing registers.  The returned value is the flushed command list, `none`
when the update was aborted. -/
def nt37290_update_te2 (s : PanelState) (res : Te2SourceResult) :
    Option (List (List Nat)) :=
  let option := nt37290_get_te2_option s
  let edges : Option (Nat × Nat) :=
    match res with
    | Te2SourceResult.ok r f => some (r % 256, f % 256)
    | Te2SourceResult.notReady => some (0x00, 0x30)
    | Te2SourceResult.err => none
  match edges with
  | none => none
  | some (rising, falling) =>
    some [[0xF0, 0x55, 0xAA, 0x52, 0x08, 0x03],
          [0xC3, option], [0x6F, 0x04], [0xC3, option],
          [0xC4, 0x00, 0x00, 0x00, 0x00, 0x00, rising, 0x10, falling]]

/-- What `nt37290_trigger_early_exit` does after comparing the elapsed time
against its thresholds. -/
inductive EarlyExitAction where
  | skip
  | lightweight
  | reorchestrate
deriving DecidableEq, Repr

/-- `nt37290_trigger_early_exit` as a function of the elapsed µs since the
last commit and of `ctx->idle_delay_ms`: below 17000 µs nothing is sent;
above, either the full `nt37290_change_frequency` re-orchestration (idle
delay configured and elapsed strictly above 50000 µs) or the single
lightweight `0x2C` stream command. -/
def nt37290_trigger_early_exit (delta_us : Nat) (idle_delay_ms : Nat) :
    EarlyExitAction :=
  if delta_us < EARLY_EXIT_THRESHOLD_US then EarlyExitAction.skip
  else if idle_delay_ms ≠ 0 ∧ delta_us > IDLE_DELAY_THRESHOLD_US then
    EarlyExitAction.reorchestrate
  else EarlyExitAction.lightweight

/-- What `nt37290_commit_done` decides to do. -/
inductive CommitDoneAction where
  | nothing
  | earlyExitTrigger (a : EarlyExitAction)
  | idleReevaluate
deriving DecidableEq, Repr

/-- `nt37290_commit_done`: gated on an active panel with a current mode;
runs the early-exit trigger when the EarlyExit feature is set, otherwise
re-runs the frequency orchestration when inactivity idling was deferred. -/
def nt37290_commit_done (s : PanelState) (delta_us : Nat) : CommitDoneAction :=
  match s.current_mode with
  | none => CommitDoneAction.nothing
  | some pmode =>
    if s.panel_active = false then CommitDoneAction.nothing
    else if s.feat.earlyExit = true then
      CommitDoneAction.earlyExitTrigger
        (nt37290_trigger_early_exit delta_us s.idle_delay_ms)
    else if pmode.idleMode = IdleMode.onInactivity ∧ s.delayed_idle = true then
      CommitDoneAction.idleReevaluate
    else CommitDoneAction.nothing

/-- The cleared feature bitmap. -/
def featClear : FeatureSet := { earlyExit := false, frameAuto := false }

/-- `nt37290_disable`: panel register state gets reset after disabling
hardware, so the committed mirrors are reset. -/
def nt37290_disable (s : PanelState) : PanelState :=
  { s with hw_feat := featClear, hw_vrefresh := 60, hw_idle_vrefresh := 0 }

/-- `nt37290_panel_probe`: the `nt37290_panel` struct is zero-allocated and
its committed vrefresh initialized to 60. -/
def nt37290_panel_probe (base : PanelState) : PanelState :=
  { base with
    feat := featClear,
    hw_feat := featClear,
    hw_vrefresh := 60,
    hw_idle_vrefresh := 0,
    auto_mode_vrefresh := 0,
    delayed_idle := false }

/-- The 60 Hz entry of `nt37290_modes`. -/
def mode60 : PanelMode :=
  { vrefresh := 60, idleMode := IdleMode.unsupported, isLpMode := false }

/-- The 120 Hz entry of `nt37290_modes`. -/
def mode120 : PanelMode :=
  { vrefresh := 120, idleMode := IdleMode.onSelfRefresh, isLpMode := false }

/-- `nt37290_lp_mode` (30 Hz AOD mode). -/
def lpMode : PanelMode :=
  { vrefresh := 30, idleMode := IdleMode.unsupported, isLpMode := true }

/-- A concrete post-probe panel state used to instantiate theorems. -/
def baseState : PanelState :=
  { current_mode := none,
    min_vrefresh := 0,
    hbm_on := false,
    dimming_on := false,
    panel_idle_enabled := true,
    idle_delay_ms := 0,
    idle_time_delta_ms := 0,
    self_refresh_active := false,
    panel_idle_vrefresh := 0,
    panel_active := true,
    feat := featClear,
    hw_feat := featClear,
    hw_vrefresh := 60,
    hw_idle_vrefresh := 0,
    auto_mode_vrefresh := 0,
    delayed_idle := false }

/-- A state whose current mode is the AOD mode. -/
def lpState : PanelState := { baseState with current_mode := some lpMode }

/-- Debounce scenario: min refresh 30 Hz, idle delay 50 ms, 30 ms elapsed
since the last mode set. -/
def dbState : PanelState :=
  { baseState with
    current_mode := some mode120, min_vrefresh := 30,
    idle_delay_ms := 50, idle_time_delta_ms := 30 }

/-- Same as `dbState` but with 51 ms elapsed since the last mode set. -/
def dbState51 : PanelState := { dbState with idle_time_delta_ms := 51 }

/-- An active-panel state with the EarlyExit feature set and no idle-delay
policy configured. -/
def eeState : PanelState :=
  { baseState with
    current_mode := some mode120,
    feat := { earlyExit := true, frameAuto := true } }

/-- Same as `eeState` but with a 50 ms idle-delay policy configured. -/
def eeStateDelay : PanelState := { eeState with idle_delay_ms := 50 }

/-- A 120 Hz state with a committed idle vrefresh of 20 Hz. -/
def te2State20 : PanelState :=
  { baseState with current_mode := some mode120, hw_idle_vrefresh := 20 }

/-- A 120 Hz state with a committed idle vrefresh of 60 Hz. -/
def te2State60 : PanelState :=
  { baseState with current_mode := some mode120, hw_idle_vrefresh := 60 }

/-- A state about to be flushed at 120 Hz with FrameAuto clear. -/
def manual120State : PanelState :=
  { baseState with current_mode := some mode120 }

/-- A state with desired features set, a pending deferred idle and a nonzero
resolved auto-mode vrefresh, about to be powered off. -/
def c9state : PanelState :=
  { baseState with
    feat := { earlyExit := true, frameAuto := true },
    delayed_idle := true, auto_mode_vrefresh := 30 }

/-- Claim C1: for every input, the idle-rate resolver
`nt37290_update_min_idle_vrefresh` produces an `auto_mode_vrefresh` that is
either 0, or the lower-or-equal bucket of the minimum refresh rate, one of
10/30/60, and strictly below the target vrefresh. -/
theorem resolve_idle_vrefresh_range (s : PanelState) (pmode : PanelMode) :
    (nt37290_update_min_idle_vrefresh s pmode).auto_mode_vrefresh = 0 ∨
    ((nt37290_update_min_idle_vrefresh s pmode).auto_mode_vrefresh =
        bucketTier s.min_vrefresh ∧
      ((nt37290_update_min_idle_vrefresh s pmode).auto_mode_vrefresh = 10 ∨
       (nt37290_update_min_idle_vrefresh s pmode).auto_mode_vrefresh = 30 ∨
       (nt37290_update_min_idle_vrefresh s pmode).auto_mode_vrefresh = 60) ∧
      (nt37290_update_min_idle_vrefresh s pmode).auto_mode_vrefresh <
        pmode.vrefresh) := by
  simp only [nt37290_update_min_idle_vrefresh, idleVrefreshBucketed, bucketTier,
    is_auto_mode_allowed]
  split_ifs <;> simp_all

/-- Claim C4: whenever the bucketed idle rate is nonzero, a configured
idle-delay policy with insufficient elapsed time suppresses idling
(idle rate 0, `delayed_idle` set); otherwise the bucketed rate is kept and
`delayed_idle` is cleared. -/
theorem resolve_idle_delay_debounce (s : PanelState) (pmode : PanelMode)
    (h : idleVrefreshBucketed s pmode ≠ 0) :
    (s.idle_delay_ms ≠ 0 ∧ s.idle_time_delta_ms < s.idle_delay_ms →
      (nt37290_update_min_idle_vrefresh s pmode).auto_mode_vrefresh = 0 ∧
      (nt37290_update_min_idle_vrefresh s pmode).delayed_idle = true) ∧
    (¬(s.idle_delay_ms ≠ 0 ∧ s.idle_time_delta_ms < s.idle_delay_ms) →
      (nt37290_update_min_idle_vrefresh s pmode).auto_mode_vrefresh =
        idleVrefreshBucketed s pmode ∧
      (nt37290_update_min_idle_vrefresh s pmode).delayed_idle = false) := by
  constructor <;> intro hc <;> simp [nt37290_update_min_idle_vrefresh, h, hc]

/-- Witness for `resolve_idle_delay_debounce`: with an idle delay of 50 ms,
30 ms elapsed suppresses idling with `delayed_idle` set, while 51 ms elapsed
keeps the bucketed 30 Hz idle rate with `delayed_idle` clear. -/
theorem resolve_idle_delay_debounce_witness :
    ((nt37290_update_min_idle_vrefresh dbState mode120).auto_mode_vrefresh = 0 ∧
     (nt37290_update_min_idle_vrefresh dbState mode120).delayed_idle = true) ∧
    ((nt37290_update_min_idle_vrefresh dbState51 mode120).auto_mode_vrefresh =
        idleVrefreshBucketed dbState51 mode120 ∧
     (nt37290_update_min_idle_vrefresh dbState51 mode120).delayed_idle = false) :=
  ⟨(resolve_idle_delay_debounce dbState mode120 (by decide)).1 (by decide),
   (resolve_idle_delay_debounce dbState51 mode120 (by decide)).2 (by decide)⟩

/-- Claim C5: the early-exit trigger does nothing below 17000 µs elapsed,
sends the single lightweight 0x2C command at 17000 µs with no idle-delay
policy, and runs the full `nt37290_change_frequency` re-orchestration at
50001 µs with an idle-delay policy configured; `nt37290_commit_done` routes
to the trigger when the EarlyExit feature is active. -/
theorem trigger_early_exit_thresholds :
    (∀ d : Nat, nt37290_trigger_early_exit 16999 d = EarlyExitAction.skip) ∧
    nt37290_trigger_early_exit 17000 0 = EarlyExitAction.lightweight ∧
    nt37290_trigger_early_exit 50001 50 = EarlyExitAction.reorchestrate ∧
    nt37290_commit_done eeState 16999 =
      CommitDoneAction.earlyExitTrigger EarlyExitAction.skip ∧
    nt37290_commit_done eeState 17000 =
      CommitDoneAction.earlyExitTrigger EarlyExitAction.lightweight ∧
    nt37290_commit_done eeStateDelay 50001 =
      CommitDoneAction.earlyExitTrigger EarlyExitAction.reorchestrate :=
  ⟨fun _ => rfl, by decide, by decide, by decide, by decide, by decide⟩

/-- Claim C6: the TE2 option is fixed exactly when a current mode exists and
is a low-power mode or the committed idle vrefresh is nonzero and below
30 Hz; otherwise (including with no current mode) it is changeable.  In
particular a committed idle vrefresh of 20 Hz gives the fixed option and one
of 60 Hz the changeable option outside low-power mode. -/
theorem get_te2_option_characterization (s : PanelState) :
    (nt37290_get_te2_option s = NT37290_TE2_FIXED ↔
      ∃ m, s.current_mode = some m ∧
        (m.isLpMode = true ∨
          (0 < s.hw_idle_vrefresh ∧ s.hw_idle_vrefresh < 30))) ∧
    (nt37290_get_te2_option s = NT37290_TE2_FIXED ∨
     nt37290_get_te2_option s = NT37290_TE2_CHANGEABLE) ∧
    nt37290_get_te2_option te2State20 = NT37290_TE2_FIXED ∧
    nt37290_get_te2_option te2State60 = NT37290_TE2_CHANGEABLE := by
  refine ⟨?_, ?_, by decide, by decide⟩ <;>
    rcases h : s.current_mode with _ | m
  · simp [nt37290_get_te2_option, h, NT37290_TE2_FIXED, NT37290_TE2_CHANGEABLE]
  · cases hl : m.isLpMode <;>
      simp [nt37290_get_te2_option, h, hl, NT37290_TE2_FIXED,
        NT37290_TE2_CHANGEABLE, NT37290_TE2_MIN_RATE]
  · simp [nt37290_get_te2_option, h, NT37290_TE2_FIXED, NT37290_TE2_CHANGEABLE]
  · cases hl : m.isLpMode
    · simp [nt37290_get_te2_option, h, hl, NT37290_TE2_FIXED,
        NT37290_TE2_CHANGEABLE, NT37290_TE2_MIN_RATE]
      omega
    · simp [nt37290_get_te2_option, h, hl, NT37290_TE2_FIXED,
        NT37290_TE2_CHANGEABLE, NT37290_TE2_MIN_RATE]

/-- Claim C7: the TE2 update uses the timing source's edges (masked to one
byte) on success, proceeds with the defaults rising 0 / falling 0x30 when the
source reports not-ready, and aborts without emitting any command on any
other failure. -/
theorem update_te2_timing_source_handling (s : PanelState) (r f : Nat) :
    nt37290_update_te2 s (Te2SourceResult.ok r f) =
      some [[0xF0, 0x55, 0xAA, 0x52, 0x08, 0x03],
            [0xC3, nt37290_get_te2_option s], [0x6F, 0x04],
            [0xC3, nt37290_get_te2_option s],
            [0xC4, 0x00, 0x00, 0x00, 0x00, 0x00, r % 256, 0x10, f % 256]] ∧
    nt37290_update_te2 s Te2SourceResult.notReady =
      some [[0xF0, 0x55, 0xAA, 0x52, 0x08, 0x03],
            [0xC3, nt37290_get_te2_option s], [0x6F, 0x04],
            [0xC3, nt37290_get_te2_option s],
            [0xC4, 0x00, 0x00, 0x00, 0x00, 0x00, 0x00, 0x10, 0x30]] ∧
    nt37290_update_te2 s Te2SourceResult.err = none :=
  ⟨rfl, rfl, rfl⟩

/-- Counterexample to claim C9 as stated: powering off via `nt37290_disable`
leaves the desired feature set, the pending deferred-idle flag and the
resolved auto-mode vrefresh untouched, so they are not reset to the attach
defaults. -/
theorem disable_keeps_desired_features :
    (nt37290_disable c9state).feat = { earlyExit := true, frameAuto := true } ∧
    (nt37290_disable c9state).delayed_idle = true ∧
    (nt37290_disable c9state).auto_mode_vrefresh = 30 := by decide

/-- Claim C9 (amended): `nt37290_disable` resets exactly the committed
hardware mirrors (`hw_feat` cleared, `hw_vrefresh` 60, `hw_idle_vrefresh` 0)
and leaves the desired feature set, `auto_mode_vrefresh` and `delayed_idle`
unchanged; `nt37290_panel_probe` initializes all of them to the attach
defaults. -/
theorem disable_resets_committed_state_probe_defaults (s b : PanelState) :
    (nt37290_disable s).hw_feat = featClear ∧
    (nt37290_disable s).hw_vrefresh = 60 ∧
    (nt37290_disable s).hw_idle_vrefresh = 0 ∧
    (nt37290_disable s).feat = s.feat ∧
    (nt37290_disable s).auto_mode_vrefresh = s.auto_mode_vrefresh ∧
    (nt37290_disable s).delayed_idle = s.delayed_idle ∧
    (nt37290_panel_probe b).feat = featClear ∧
    (nt37290_panel_probe b).hw_feat = featClear ∧
    (nt37290_panel_probe b).hw_vrefresh = 60 ∧
    (nt37290_panel_probe b).hw_idle_vrefresh = 0 ∧
    (nt37290_panel_probe b).auto_mode_vrefresh = 0 ∧
    (nt37290_panel_probe b).delayed_idle = false :=
  ⟨rfl, rfl, rfl, rfl, rfl, rfl, rfl, rfl, rfl, rfl, rfl, rfl⟩

/-- Claim C10: after `nt37290_change_frequency`, the externally reported
`panel_idle_vrefresh` equals the committed `hw_idle_vrefresh` when
self-refresh is active and 0 otherwise, and `nt37290_update_panel_feat`
zeroes it unconditionally, even when no flush was needed. -/
theorem change_frequency_reports_idle_vrefresh (s : PanelState)
    (pmode : PanelMode) (p : Option PanelMode) (e : Bool) :
    ((nt37290_change_frequency s pmode).state.panel_idle_vrefresh =
      if (nt37290_change_frequency s pmode).state.self_refresh_active then
        (nt37290_change_frequency s pmode).state.hw_idle_vrefresh
      else 0) ∧
    (nt37290_update_panel_feat s p e).state.panel_idle_vrefresh = 0 := by
  constructor
  · simp [nt37290_change_frequency]
  · simp only [nt37290_update_panel_feat]
    split_ifs <;> rfl

/-- Claim C2: after any `nt37290_change_frequency` call, the EarlyExit and
FrameAuto bits are equal, in the desired feature set and in the committed
one: the function only ever sets or clears them together. -/
theorem change_frequency_couples_features (s : PanelState) (pmode : PanelMode) :
    ((nt37290_change_frequency s pmode).state.feat.earlyExit =
      (nt37290_change_frequency s pmode).state.feat.frameAuto) ∧
    ((nt37290_change_frequency s pmode).state.hw_feat.earlyExit =
      (nt37290_change_frequency s pmode).state.hw_feat.frameAuto) := by
  simp only [nt37290_change_frequency, nt37290_update_panel_feat,
    nt37290_update_min_idle_vrefresh]
  split_ifs <;> simp_all
  all_goals
    rename_i hc
    rw [← hc.2.1]

/-- `nt37290_update_min_idle_vrefresh` only writes `delayed_idle` and
`auto_mode_vrefresh`; every other field is preserved. -/
lemma umiv_preserves (s : PanelState) (pmode : PanelMode) :
    (nt37290_update_min_idle_vrefresh s pmode).current_mode = s.current_mode ∧
    (nt37290_update_min_idle_vrefresh s pmode).min_vrefresh = s.min_vrefresh ∧
    (nt37290_update_min_idle_vrefresh s pmode).hbm_on = s.hbm_on ∧
    (nt37290_update_min_idle_vrefresh s pmode).dimming_on = s.dimming_on ∧
    (nt37290_update_min_idle_vrefresh s pmode).panel_idle_enabled =
      s.panel_idle_enabled ∧
    (nt37290_update_min_idle_vrefresh s pmode).idle_delay_ms = s.idle_delay_ms ∧
    (nt37290_update_min_idle_vrefresh s pmode).idle_time_delta_ms =
      s.idle_time_delta_ms ∧
    (nt37290_update_min_idle_vrefresh s pmode).self_refresh_active =
      s.self_refresh_active ∧
    (nt37290_update_min_idle_vrefresh s pmode).feat = s.feat ∧
    (nt37290_update_min_idle_vrefresh s pmode).hw_feat = s.hw_feat ∧
    (nt37290_update_min_idle_vrefresh s pmode).hw_vrefresh = s.hw_vrefresh ∧
    (nt37290_update_min_idle_vrefresh s pmode).hw_idle_vrefresh =
      s.hw_idle_vrefresh := by
  simp only [nt37290_update_min_idle_vrefresh]
  split_ifs <;> simp

/-- `nt37290_update_panel_feat` never writes the decision inputs or the
desired feature set. -/
lemma upf_preserves (s : PanelState) (p : Option PanelMode) (e : Bool) :
    (nt37290_update_panel_feat s p e).state.current_mode = s.current_mode ∧
    (nt37290_update_panel_feat s p e).state.min_vrefresh = s.min_vrefresh ∧
    (nt37290_update_panel_feat s p e).state.hbm_on = s.hbm_on ∧
    (nt37290_update_panel_feat s p e).state.dimming_on = s.dimming_on ∧
    (nt37290_update_panel_feat s p e).state.panel_idle_enabled =
      s.panel_idle_enabled ∧
    (nt37290_update_panel_feat s p e).state.idle_delay_ms = s.idle_delay_ms ∧
    (nt37290_update_panel_feat s p e).state.idle_time_delta_ms =
      s.idle_time_delta_ms ∧
    (nt37290_update_panel_feat s p e).state.self_refresh_active =
      s.self_refresh_active ∧
    (nt37290_update_panel_feat s p e).state.feat = s.feat := by
  simp only [nt37290_update_panel_feat]
  split_ifs <;> simp

/-- After `nt37290_update_panel_feat` with an explicit mode, the committed
fields match the desired ones whether or not a flush happened (without a
flush the early-return condition already guarantees it). -/
lemma upf_commits (s : PanelState) (m : PanelMode) (e : Bool) :
    (nt37290_update_panel_feat s (some m) e).state.hw_vrefresh = m.vrefresh ∧
    (nt37290_update_panel_feat s (some m) e).state.hw_idle_vrefresh =
      s.auto_mode_vrefresh ∧
    (nt37290_update_panel_feat s (some m) e).state.hw_feat = s.feat := by
  simp only [nt37290_update_panel_feat]
  split_ifs with h1
  · obtain ⟨-, hf, hv, hi⟩ := h1
    simp [hf, hv, hi]
  all_goals simp

/-- `idleActive` only looks at `auto_mode_vrefresh` and
`self_refresh_active`. -/
lemma idleActive_congr (a b : PanelState) (pmode : PanelMode)
    (h1 : a.auto_mode_vrefresh = b.auto_mode_vrefresh)
    (h2 : a.self_refresh_active = b.self_refresh_active) :
    idleActive a pmode = idleActive b pmode := by
  simp only [idleActive, h1, h2]

/-- The bucketed idle rate only looks at the resolver's inputs. -/
lemma bucket_congr (s t : PanelState) (pmode : PanelMode)
    (h1 : t.min_vrefresh = s.min_vrefresh) (h2 : t.hbm_on = s.hbm_on)
    (h3 : t.dimming_on = s.dimming_on)
    (h4 : t.panel_idle_enabled = s.panel_idle_enabled) :
    idleVrefreshBucketed t pmode = idleVrefreshBucketed s pmode := by
  simp only [idleVrefreshBucketed, is_auto_mode_allowed, h1, h2, h3, h4]

/-- The resolved `auto_mode_vrefresh` only looks at the resolver's inputs. -/
lemma umiv_auto_congr (s t : PanelState) (pmode : PanelMode)
    (h1 : t.min_vrefresh = s.min_vrefresh) (h2 : t.hbm_on = s.hbm_on)
    (h3 : t.dimming_on = s.dimming_on)
    (h4 : t.panel_idle_enabled = s.panel_idle_enabled)
    (h5 : t.idle_delay_ms = s.idle_delay_ms)
    (h6 : t.idle_time_delta_ms = s.idle_time_delta_ms) :
    (nt37290_update_min_idle_vrefresh t pmode).auto_mode_vrefresh =
      (nt37290_update_min_idle_vrefresh s pmode).auto_mode_vrefresh := by
  simp only [nt37290_update_min_idle_vrefresh]
  rw [bucket_congr s t pmode h1 h2 h3 h4, h5, h6]
  split_ifs <;> simp

/-- When nothing differs from the committed state and no flush is enforced,
`nt37290_update_panel_feat` returns early: no commands, no warnings, no
state change beyond zeroing `panel_idle_vrefresh`. -/
lemma upf_no_change (t : PanelState) (m : PanelMode)
    (h : t.feat = t.hw_feat ∧ m.vrefresh = t.hw_vrefresh ∧
      t.auto_mode_vrefresh = t.hw_idle_vrefresh) :
    nt37290_update_panel_feat t (some m) false =
      { state := { t with panel_idle_vrefresh := 0 },
        updated := false, cmds := [], warns := [] } := by
  simp only [nt37290_update_panel_feat]
  rw [if_pos ⟨True.intro, h.1, h.2.1, h.2.2⟩]

/-- After `nt37290_change_frequency`, the decision inputs are unchanged and
the committed state matches the desired one: both feature sets carry the
coupled `idle_active` bit, the committed vrefresh is the requested mode's
and the committed idle vrefresh is the freshly resolved one. -/
lemma cf_committed (s : PanelState) (pmode : PanelMode) :
    (nt37290_change_frequency s pmode).state.current_mode = s.current_mode ∧
    (nt37290_change_frequency s pmode).state.min_vrefresh = s.min_vrefresh ∧
    (nt37290_change_frequency s pmode).state.hbm_on = s.hbm_on ∧
    (nt37290_change_frequency s pmode).state.dimming_on = s.dimming_on ∧
    (nt37290_change_frequency s pmode).state.panel_idle_enabled =
      s.panel_idle_enabled ∧
    (nt37290_change_frequency s pmode).state.idle_delay_ms = s.idle_delay_ms ∧
    (nt37290_change_frequency s pmode).state.idle_time_delta_ms =
      s.idle_time_delta_ms ∧
    (nt37290_change_frequency s pmode).state.self_refresh_active =
      s.self_refresh_active ∧
    (nt37290_change_frequency s pmode).state.feat =
      { earlyExit := idleActive (nt37290_update_min_idle_vrefresh s pmode) pmode,
        frameAuto := idleActive (nt37290_update_min_idle_vrefresh s pmode) pmode } ∧
    (nt37290_change_frequency s pmode).state.hw_feat =
      { earlyExit := idleActive (nt37290_update_min_idle_vrefresh s pmode) pmode,
        frameAuto := idleActive (nt37290_update_min_idle_vrefresh s pmode) pmode } ∧
    (nt37290_change_frequency s pmode).state.hw_vrefresh = pmode.vrefresh ∧
    (nt37290_change_frequency s pmode).state.hw_idle_vrefresh =
      (nt37290_update_min_idle_vrefresh s pmode).auto_mode_vrefresh := by
  simp only [nt37290_change_frequency]
  simp [upf_preserves, upf_commits, umiv_preserves]

/-- `nt37290_change_frequency` reports no change when the committed state
already matches what the call would commit and the current mode is not the
AOD mode. -/
lemma cf_no_change (t : PanelState) (pmode : PanelMode)
    (hlp : wasLpMode t = false)
    (hfeat : t.hw_feat =
      { earlyExit := idleActive (nt37290_update_min_idle_vrefresh t pmode) pmode,
        frameAuto := idleActive (nt37290_update_min_idle_vrefresh t pmode) pmode })
    (hv : t.hw_vrefresh = pmode.vrefresh)
    (hidle : t.hw_idle_vrefresh =
      (nt37290_update_min_idle_vrefresh t pmode).auto_mode_vrefresh) :
    (nt37290_change_frequency t pmode).updated = false ∧
    (nt37290_change_frequency t pmode).cmds = [] ∧
    (nt37290_change_frequency t pmode).state.hw_feat = t.hw_feat ∧
    (nt37290_change_frequency t pmode).state.hw_vrefresh = t.hw_vrefresh ∧
    (nt37290_change_frequency t pmode).state.hw_idle_vrefresh =
      t.hw_idle_vrefresh := by
  obtain ⟨-, -, -, -, -, -, -, -, -, hwf, hwv, hwi⟩ := umiv_preserves t pmode
  simp only [nt37290_change_frequency]
  rw [hlp]
  set u := nt37290_update_min_idle_vrefresh t pmode with hu
  set b := idleActive u pmode with hb
  rw [upf_no_change { u with feat := { earlyExit := b, frameAuto := b } } pmode
    ⟨by simp [hwf, hfeat], by simp [hwv, hv], by simp [hwi, hidle]⟩]
  simp [hwf, hwv, hwi]

/-- Counterexample to claim C3 as stated: while the current mode is the
low-power AOD mode, `nt37290_change_frequency` forces a flush on every call
(`enforce` is `was_lp_mode`), so a second identical call with no intervening
state change still reports a change and emits commands. -/
theorem change_frequency_second_call_flushes_in_lp :
    wasLpMode lpState = true ∧
    (nt37290_change_frequency
      (nt37290_change_frequency lpState mode60).state mode60).updated = true ∧
    (nt37290_change_frequency
      (nt37290_change_frequency lpState mode60).state mode60).cmds ≠ [] := by
  decide

/-- Claim C3 (amended): provided the current mode is not the low-power AOD
mode, calling `nt37290_change_frequency` twice in a row with the same
requested mode and no intervening state change makes the second call report
no change, emit no commands and leave the committed `hw_feat`,
`hw_vrefresh`, `hw_idle_vrefresh` untouched. -/
theorem change_frequency_idempotent_outside_lp (s : PanelState)
    (pmode : PanelMode) (hlp : wasLpMode s = false) :
    (nt37290_change_frequency
      (nt37290_change_frequency s pmode).state pmode).updated = false ∧
    (nt37290_change_frequency
      (nt37290_change_frequency s pmode).state pmode).cmds = [] ∧
    (nt37290_change_frequency
        (nt37290_change_frequency s pmode).state pmode).state.hw_feat =
      (nt37290_change_frequency s pmode).state.hw_feat ∧
    (nt37290_change_frequency
        (nt37290_change_frequency s pmode).state pmode).state.hw_vrefresh =
      (nt37290_change_frequency s pmode).state.hw_vrefresh ∧
    (nt37290_change_frequency
        (nt37290_change_frequency s pmode).state pmode).state.hw_idle_vrefresh =
      (nt37290_change_frequency s pmode).state.hw_idle_vrefresh := by
  obtain ⟨hcm, hmin, hhbm, hdim, hen, hdel, hdta, hsr, hfeat, hhwf, hhwv, hhwi⟩ :=
    cf_committed s pmode
  have hlp2 : wasLpMode (nt37290_change_frequency s pmode).state = false := by
    simp only [wasLpMode] at hlp ⊢
    rw [hcm]
    exact hlp
  have hauto := umiv_auto_congr s (nt37290_change_frequency s pmode).state pmode
    hmin hhbm hdim hen hdel hdta
  have hsrt : (nt37290_update_min_idle_vrefresh
      (nt37290_change_frequency s pmode).state pmode).self_refresh_active =
      (nt37290_update_min_idle_vrefresh s pmode).self_refresh_active := by
    rw [(umiv_preserves (nt37290_change_frequency s pmode).state
        pmode).2.2.2.2.2.2.2.1,
      (umiv_preserves s pmode).2.2.2.2.2.2.2.1, hsr]
  have hb : idleActive (nt37290_update_min_idle_vrefresh
        (nt37290_change_frequency s pmode).state pmode) pmode =
      idleActive (nt37290_update_min_idle_vrefresh s pmode) pmode :=
    idleActive_congr _ _ pmode hauto hsrt
  exact cf_no_change (nt37290_change_frequency s pmode).state pmode hlp2
    (by rw [hb]; exact hhwf) hhwv (by rw [hauto]; exact hhwi)

/-- Witness for `change_frequency_idempotent_outside_lp` at a concrete
non-AOD state and the 120 Hz mode. -/
theorem change_frequency_idempotent_outside_lp_witness :
    (nt37290_change_frequency
      (nt37290_change_frequency manual120State mode120).state mode120).updated =
        false ∧
    (nt37290_change_frequency
      (nt37290_change_frequency manual120State mode120).state mode120).cmds = [] ∧
    (nt37290_change_frequency
        (nt37290_change_frequency manual120State mode120).state
          mode120).state.hw_feat =
      (nt37290_change_frequency manual120State mode120).state.hw_feat ∧
    (nt37290_change_frequency
        (nt37290_change_frequency manual120State mode120).state
          mode120).state.hw_vrefresh =
      (nt37290_change_frequency manual120State mode120).state.hw_vrefresh ∧
    (nt37290_change_frequency
        (nt37290_change_frequency manual120State mode120).state
          mode120).state.hw_idle_vrefresh =
      (nt37290_change_frequency manual120State mode120).state.hw_idle_vrefresh :=
  change_frequency_idempotent_outside_lp manual120State mode120 (by decide)

/-- Counterexample to claim C8 as stated: at 120 Hz with FrameAuto clear
(a vrefresh other than 60 in manual mode), no configuration warning is
reported at all — the dedicated manual high-speed path is taken and the
batch contains neither the frequency-control command nor the frame-advance
`0x2C`. -/
theorem update_panel_feat_manual_120_no_warning :
    manual120State.feat.frameAuto = false ∧
    mode120.vrefresh ≠ 60 ∧
    (nt37290_update_panel_feat manual120State (some mode120) true).warns = [] ∧
    (nt37290_update_panel_feat manual120State (some mode120) true).cmds =
      [[0x2F, 0x00], [0x44, 0x00, 0x00]] := by
  decide

/-- Claim C8 (amended): in the frame-skip path, an unsupported combination —
FrameAuto clear with vrefresh other than 60 (and other than the dedicated
manual 120 Hz path), or FrameAuto set with idle vrefresh not one of 10, 30
or 60 — raises a recoverable configuration warning and only the
auto-frame-insertion `0xBA` write is skipped: the rest of the batch is still
emitted, the call still returns true, and the committed state is still
updated. -/
theorem update_panel_feat_unsupported_combo_skips_only_ba
    (s : PanelState) (m : PanelMode) (enforce : Bool)
    (hflush : ¬(enforce = false ∧ s.feat = s.hw_feat ∧
      m.vrefresh = s.hw_vrefresh ∧ s.auto_mode_vrefresh = s.hw_idle_vrefresh))
    (hpath : ¬(m.vrefresh = 120 ∧ s.feat.frameAuto = false))
    (hbad : (s.feat.frameAuto = false ∧ m.vrefresh ≠ 60) ∨
            (s.feat.frameAuto = true ∧ s.auto_mode_vrefresh ≠ 10 ∧
             s.auto_mode_vrefresh ≠ 30 ∧ s.auto_mode_vrefresh ≠ 60)) :
    (nt37290_update_panel_feat s (some m) enforce).updated = true ∧
    (nt37290_update_panel_feat s (some m) enforce).warns ≠ [] ∧
    (nt37290_update_panel_feat s (some m) enforce).cmds =
      [[0x2F, 0x00], [0x2F, 0x30],
       [0x5A, if s.feat.earlyExit then 0x00 else 0x01],
       cmd2_page0, [0x6F, 0x1C], stream_2c,
       if m.vrefresh = 120 then [0x44, 0x00, 0x00] else [0x44, 0x00, 0x01]] ∧
    (nt37290_update_panel_feat s (some m) enforce).state.hw_vrefresh =
      m.vrefresh ∧
    (nt37290_update_panel_feat s (some m) enforce).state.hw_idle_vrefresh =
      s.auto_mode_vrefresh ∧
    (nt37290_update_panel_feat s (some m) enforce).state.hw_feat = s.feat := by
  simp only [nt37290_update_panel_feat]
  rw [if_neg hflush, if_neg hpath]
  rcases hbad with ⟨hfi, hv⟩ | ⟨hfi, h10, h30, h60⟩ <;> simp_all

/-- Witness for `update_panel_feat_unsupported_combo_skips_only_ba`: the
30 Hz AOD timing with FrameAuto clear is an unsupported manual-mode
vrefresh. -/
theorem update_panel_feat_unsupported_combo_skips_only_ba_witness :
    (nt37290_update_panel_feat baseState (some lpMode) true).updated = true ∧
    (nt37290_update_panel_feat baseState (some lpMode) true).warns ≠ [] ∧
    (nt37290_update_panel_feat baseState (some lpMode) true).cmds =
      [[0x2F, 0x00], [0x2F, 0x30],
       [0x5A, if baseState.feat.earlyExit then 0x00 else 0x01],
       cmd2_page0, [0x6F, 0x1C], stream_2c,
       if lpMode.vrefresh = 120 then [0x44, 0x00, 0x00] else [0x44, 0x00, 0x01]] ∧
    (nt37290_update_panel_feat baseState (some lpMode) true).state.hw_vrefresh =
      lpMode.vrefresh ∧
    (nt37290_update_panel_feat baseState
        (some lpMode) true).state.hw_idle_vrefresh =
      baseState.auto_mode_vrefresh ∧
    (nt37290_update_panel_feat baseState (some lpMode) true).state.hw_feat =
      baseState.feat :=
  update_panel_feat_unsupported_combo_skips_only_ba baseState lpMode true
    (by decide) (by decide) (Or.inl (by decide))

end NT37290
